import Mathlib

/-!
Verification development for the climatewatch-data-lakehouse GSOD ingestion
pipeline (src/ingestion/process_gsod.py).

The script is a sequential batch converter: it discovers per-station CSV
files, normalizes four columns (DATE, TEMP, MAX, MIN) with pandas, drops
rows whose date fails to parse, stamps the station id, writes a Parquet
file, and uploads it to S3.  We embed the value-level normalization
pipeline, a driver model with an explicit event log, and a small heap
model that tracks which pandas objects each statement mutates.

Date and numeric parsing (pd.to_datetime / pd.to_numeric with
errors set to coerce) are cell-wise partial functions; we model them as
abstract parameters pd : String → Option δ and pn : String → Option ν,
where the value none is the missing-value marker (NaT / NaN).  No claim
depends on the internals of those parsers, only on success/failure.
-/

namespace ClimateWatch

/-! ### Value-level model of clean_and_convert -/

/-- A raw pandas DataFrame as produced by pd.read_csv: a list of column
names and a list of rows, each row a list of textual cells addressed by
column position.  Column names are assumed distinct (read_csv mangles
duplicate headers). -/
structure RawFrame where
  cols : List String
  rows : List (List String)
deriving DecidableEq

/-- Error raised by the column-selection step df[[...]] when a requested
column is absent (pandas KeyError; the SchemaError of the spec). -/
inductive NormError
  | schemaError
deriving DecidableEq

/-- One row after selecting the four source columns, in source order
DATE, TEMP, MAX, MIN. -/
abbrev Quad := String × String × String × String

/-- One row after the four cell-wise coercions: date, temp, max, min,
each none when the parse failed (NaT / NaN). -/
abbrev CRow (dt nm : Type) := Option dt × Option nm × Option nm × Option nm

/-- One normalized output row: a successfully parsed date, three optional
numeric readings (none is the missing-value marker), and the station id. -/
structure NormRow (dt nm : Type) where
  date : dt
  temp : Option nm
  max_temp : Option nm
  min_temp : Option nm
  station_id : String
deriving DecidableEq

/-- Position of a named column in a frame, none when absent. -/
def RawFrame.col? (df : RawFrame) (c : String) : Option Nat :=
  df.cols.findIdx? (fun x => x == c)

/-- Embedding of line 42, df[[DATE, TEMP, MAX, MIN]]: project every row
onto the four required columns, or fail with a KeyError (SchemaError)
when any of them is absent from the header.  The subsequent rename on
line 43 only changes labels, which the positional representation already
abstracts away. -/
def selectQuads (df : RawFrame) : Except NormError (List Quad) :=
  match df.col? "DATE", df.col? "TEMP", df.col? "MAX", df.col? "MIN" with
  | some i, some j, some k, some l =>
      .ok (df.rows.map (fun r => (r.getD i "", r.getD j "", r.getD k "", r.getD l "")))
  | _, _, _, _ => .error .schemaError

/-- Embedding of lines 45-48: cell-wise coercion of one row, date by pd
and the three numeric fields by pn, failures becoming none. -/
def coerceRow {dt nm : Type} (pd : String → Option dt) (pn : String → Option nm)
    (q : Quad) : CRow dt nm :=
  (pd q.1, pn q.2.1, pn q.2.2.1, pn q.2.2.2)

/-- Embedding of clean_and_convert (lines 40-56): select and rename the
four columns, coerce every cell, drop the rows whose date failed to
parse (line 50, dropna on the date column), and stamp the station id
(line 51).  The except branch (lines 54-56) catches the KeyError from a
missing column and returns an empty frame. -/
def clean_and_convert {dt nm : Type} (pd : String → Option dt) (pn : String → Option nm)
    (df : RawFrame) (station_id : String) : List (NormRow dt nm) :=
  match selectQuads df with
  | .error _ => []
  | .ok quads =>
      (quads.map (coerceRow pd pn)).filterMap (fun r =>
        r.1.map (fun d => ⟨d, r.2.1, r.2.2.1, r.2.2.2, station_id⟩))

/-! ### String helpers

Python operations on paths and names, embedded character by character so
that every definition reduces in the kernel. -/

/-- Lexicographic order on code-point sequences, the order Python uses to
compare strings in sorted. -/
def lexLe : List Char → List Char → Bool
  | [], _ => true
  | _ :: _, [] => false
  | a :: as, b :: bs => if a = b then lexLe as bs else decide (a < b)

/-- Lexicographic order on strings. -/
def strLe (s t : String) : Bool := lexLe s.data t.data

/-- Embedding of Python sorted on strings: a stable sort by lexicographic
order.  Sortedness is antisymmetric and total here, so every correct
sort (Python timsort included) returns this very list. -/
def sortStr (l : List String) : List String :=
  List.insertionSort (fun s t => strLe s t = true) l

/-- Worker for Python str.replace: scan left to right; at a match emit
the replacement and skip the matched characters (the skip argument counts
characters still to drop), otherwise copy one character. -/
def replGo (pat rep : List Char) : Nat → List Char → List Char
  | _, [] => []
  | Nat.succ k, _c :: rest => replGo pat rep k rest
  | 0, c :: rest =>
    if pat.isPrefixOf (c :: rest) then rep ++ replGo pat rep (pat.length - 1) rest
    else c :: replGo pat rep 0 rest

/-- Embedding of Python str.replace(pat, rep): replaces every
non-overlapping occurrence, leftmost first.  The empty-pattern case never
arises in the script and is mapped to the identity. -/
def pyReplace (s pat rep : String) : String :=
  if pat.data = [] then s else ⟨replGo pat.data rep.data 0 s.data⟩

/-- Embedding of os.path.basename: the part of the path after the last
slash. -/
def basename (s : String) : String :=
  ⟨s.data.foldl (fun acc c => if c = '/' then [] else acc ++ [c]) []⟩

/-- Embedding of f.endswith under the fixed extension used on line 106. -/
def endsWithCsv (s : String) : Bool := ['.', 'c', 's', 'v'].isSuffixOf s.data

/-- Embedding of lines 80-81: the station id of a file path is its base
name with every occurrence of the extension text removed by str.replace. -/
def stationIdOf (file_path : String) : String :=
  pyReplace (basename file_path) ".csv" ""

/-- Modelled from the spec wording of C4 only, for comparison with the
code: the base name minus its extension, everything up to the last dot
(the name itself when it has no dot). -/
def specStem (name : String) : String :=
  if '.' ∈ name.data then ⟨((name.data.reverse.dropWhile (· ≠ '.')).drop 1).reverse⟩ else name

/-! ### Driver model

The batch driver (main, process_station_file, save_parquet, upload_to_s3)
interacts with the filesystem, pandas and S3.  We model the environment
as a World: whether the raw directory exists, its listing, and for each
file path an oracle saying how the external operations behave (what
pd.read_csv returns, whether to_parquet and upload_file succeed).  The
driver state records the local parquet files on disk, the S3 objects,
every upload attempt, and the log as a list of events. -/

/-- Fixed input directory of line 18. -/
def RAW_DIR : String := "data/raw/2025"

/-- Fixed output directory of line 19. -/
def PROCESSED_DIR : String := "data/processed/2025"

/-- Embedding of os.path.join(RAW_DIR, f) on line 106. -/
def joinRaw (f : String) : String := RAW_DIR ++ "/" ++ f

/-- Local parquet path of line 61. -/
def parquetPath (station_id : String) : String :=
  PROCESSED_DIR ++ "/" ++ station_id ++ ".parquet"

/-- Remote key of line 94. -/
def s3KeyOf (station_id : String) : String :=
  "processed/2025/" ++ station_id ++ ".parquet"

/-- Behaviour of the external operations on one file: what pd.read_csv
yields (none when it raises), and whether to_parquet and upload_file
succeed. -/
structure FileBehavior where
  readOk : Option RawFrame
  saveOk : Bool
  uploadOk : Bool

/-- The environment of one run. -/
structure World where
  rawDirExists : Bool
  listing : List String
  behav : String → FileBehavior

/-- Log events, mirroring the logging calls of the script. -/
inductive Event
  | fatalConfig
  | foundFiles (total limited : Nat)
  | started (station : String)
  | readFailed (filename : String)
  | skippedEmpty (filename : String)
  | savedParquet (path : String)
  | saveFailed (station : String)
  | uploaded (key : String)
  | uploadFailed (path : String)
  | finished
deriving DecidableEq

/-- Observable run state: local files, S3 objects, upload attempts and
the log. -/
structure DState where
  disk : List String
  s3 : List String
  uploads : List (String × String)
  events : List Event
deriving DecidableEq

/-- Append one log line. -/
def DState.log (st : DState) (e : Event) : DState :=
  { st with events := st.events ++ [e] }

/-- State at process start: nothing written, nothing uploaded. -/
def DState.init : DState := ⟨[], [], [], []⟩

/-- Embedding of save_parquet (lines 59-68): on success the parquet file
appears on disk and the path is returned; on failure an error is logged
and None is returned. -/
def save_parquet (st : DState) (station_id : String) (ok : Bool) : DState × Option String :=
  if ok then
    (DState.log { st with disk := st.disk ++ [parquetPath station_id] }
      (.savedParquet (parquetPath station_id)), some (parquetPath station_id))
  else (st.log (.saveFailed station_id), none)

/-- Embedding of upload_to_s3 (lines 71-76): a single upload attempt; on
success the object appears under the key, on failure the error is logged
and the state is otherwise unchanged (the local file is not removed). -/
def upload_to_s3 (st : DState) (local_path s3_key : String) (ok : Bool) : DState :=
  let st1 := { st with uploads := st.uploads ++ [(local_path, s3_key)] }
  if ok then DState.log { st1 with s3 := st1.s3 ++ [s3_key] } (.uploaded s3_key)
  else st1.log (.uploadFailed local_path)

/-- Embedding of process_station_file (lines 79-97): derive the station
id from the file name, read the CSV (a raise is caught by the outer
except), clean, skip when empty, save, and upload only when the save
returned a path. -/
def process_station_file {dt nm : Type} (pd : String → Option dt) (pn : String → Option nm)
    (w : World) (st : DState) (file_path : String) : DState :=
  let filename := basename file_path
  let station_id := pyReplace filename ".csv" ""
  let st1 := st.log (.started station_id)
  match (w.behav file_path).readOk with
  | none => st1.log (.readFailed filename)
  | some df =>
    let cleaned := clean_and_convert pd pn df station_id
    if cleaned.isEmpty then st1.log (.skippedEmpty filename)
    else
      match save_parquet st1 station_id (w.behav file_path).saveOk with
      | (st2, some local_parquet) =>
          upload_to_s3 st2 local_parquet (s3KeyOf station_id) (w.behav file_path).uploadOk
      | (st2, none) => st2

/-- Embedding of lines 105-107: join each listing entry with the raw
directory, keep the .csv ones, and sort. -/
def allFiles (listing : List String) : List String :=
  sortStr ((listing.filter endsWithCsv).map joinRaw)

/-- Embedding of line 109: the processing cap at 400 files. -/
def limitedFiles (listing : List String) : List String :=
  (allFiles listing).take 400

/-- Embedding of main (lines 100-115): abort with a fatal error when the
raw directory is missing; otherwise discover, cap, process each file in
order, and log completion. -/
def main {dt nm : Type} (pd : String → Option dt) (pn : String → Option nm)
    (w : World) : DState :=
  if !w.rawDirExists then DState.init.log .fatalConfig
  else
    let limited := limitedFiles w.listing
    let st := DState.init.log (.foundFiles (allFiles w.listing).length limited.length)
    (limited.foldl (process_station_file pd pn w) st).log .finished

/-- Stations whose per-file processing started, in log order (the
Processing log line of line 82 opens every per-file boundary). -/
def startedStations (st : DState) : List String :=
  st.events.filterMap (fun e => match e with | .started s => some s | _ => none)

/-- The cleaned table built while processing one file (lines 80-86):
empty when the read raises. -/
def processedTable {dt nm : Type} (pd : String → Option dt) (pn : String → Option nm)
    (w : World) (file_path : String) : List (NormRow dt nm) :=
  match (w.behav file_path).readOk with
  | some df => clean_and_convert pd pn df (stationIdOf file_path)
  | none => []

/-! ### Heap model of clean_and_convert

To settle the frame-effect claim we track which pandas objects the body
of clean_and_convert reads and writes.  The heap is a list of objects
addressed by position; allocation appends.  Selecting columns with a
list, df[[...]], returns a copy (documented pandas semantics for list
indexing), so line 42 allocates; the column assignments of lines 43-48
and 51 mutate the object the local variable df points to in place;
dropna on line 50 returns a new frame, a second allocation.  Each stage
of the object is a constructor of PyObj. -/

/-- A pandas object at some stage of the pipeline: the raw frame, the
four-column copy, the partially coerced frames (date, then temp, then
max, then min), the frame after dropna (dates now all present), the
final frame with the station column, and the fresh empty frame returned
by the except branch. -/
inductive PyObj (dt nm : Type)
  | raw (df : RawFrame)
  | sel (rows : List Quad)
  | c1 (rows : List (Option dt × String × String × String))
  | c2 (rows : List (Option dt × Option nm × String × String))
  | c3 (rows : List (Option dt × Option nm × Option nm × String))
  | c4 (rows : List (CRow dt nm))
  | dropped (rows : List (dt × Option nm × Option nm × Option nm))
  | final (rows : List (NormRow dt nm))
  | emptyFrame
deriving DecidableEq

/-- Line 45: coerce the date column in place. -/
def pyAssignDate {dt nm : Type} (pd : String → Option dt) : PyObj dt nm → PyObj dt nm
  | .sel rows => .c1 (rows.map (fun q => (pd q.1, q.2.1, q.2.2.1, q.2.2.2)))
  | o => o

/-- Line 46: coerce the temp column in place. -/
def pyAssignTemp {dt nm : Type} (pn : String → Option nm) : PyObj dt nm → PyObj dt nm
  | .c1 rows => .c2 (rows.map (fun r => (r.1, pn r.2.1, r.2.2.1, r.2.2.2)))
  | o => o

/-- Line 47: coerce the max column in place. -/
def pyAssignMax {dt nm : Type} (pn : String → Option nm) : PyObj dt nm → PyObj dt nm
  | .c2 rows => .c3 (rows.map (fun r => (r.1, r.2.1, pn r.2.2.1, r.2.2.2)))
  | o => o

/-- Line 48: coerce the min column in place. -/
def pyAssignMin {dt nm : Type} (pn : String → Option nm) : PyObj dt nm → PyObj dt nm
  | .c3 rows => .c4 (rows.map (fun r => (r.1, r.2.1, r.2.2.1, pn r.2.2.2)))
  | o => o

/-- Line 50: dropna over the date column builds a new frame holding the
rows whose date is present. -/
def pyDropna {dt nm : Type} : PyObj dt nm → PyObj dt nm
  | .c4 rows => .dropped (rows.filterMap (fun r =>
      r.1.map (fun d => (d, r.2.1, r.2.2.1, r.2.2.2))))
  | o => o

/-- Line 51: assign the constant station column in place. -/
def pyAssignStation {dt nm : Type} (sid : String) : PyObj dt nm → PyObj dt nm
  | .dropped rows => .final (rows.map (fun r => ⟨r.1, r.2.1, r.2.2.1, r.2.2.2, sid⟩))
  | o => o

/-- Heap-level embedding of clean_and_convert: the caller's frame lives
at address a; line 42 allocates the four-column copy at a fresh address
b; lines 45-48 read and overwrite b; line 50 allocates the dropna result
at a fresh address c; line 51 overwrites c; the function returns c.  A
missing column (or a non-frame argument) takes the except path, which
returns a freshly allocated empty frame. -/
def cleanHeap {dt nm : Type} (pd : String → Option dt) (pn : String → Option nm)
    (h : List (PyObj dt nm)) (a : Nat) (sid : String) : List (PyObj dt nm) × Nat :=
  match h[a]? with
  | some (.raw df) =>
    match selectQuads df with
    | .error _ => (h ++ [.emptyFrame], h.length)
    | .ok quads =>
      let b := h.length
      let h1 := h ++ [PyObj.sel quads]
      let h2 := h1.set b (pyAssignDate pd (h1.getD b .emptyFrame))
      let h3 := h2.set b (pyAssignTemp pn (h2.getD b .emptyFrame))
      let h4 := h3.set b (pyAssignMax pn (h3.getD b .emptyFrame))
      let h5 := h4.set b (pyAssignMin pn (h4.getD b .emptyFrame))
      let c := h5.length
      let h6 := h5 ++ [pyDropna (h5.getD b .emptyFrame)]
      let h7 := h6.set c (pyAssignStation sid (h6.getD c .emptyFrame))
      (h7, c)
  | _ => (h ++ [.emptyFrame], h.length)

/-! ### Helper lemmas on the value-level pipeline -/

/-- A quad whose date parses yields exactly its coerced row in the
output. -/
lemma clean_mem {dt nm : Type} (pd : String → Option dt) (pn : String → Option nm)
    (df : RawFrame) (sid : String) (quads : List Quad)
    (h : selectQuads df = .ok quads) (q : Quad) (hq : q ∈ quads) (d : dt)
    (hd : pd q.1 = some d) :
    (⟨d, pn q.2.1, pn q.2.2.1, pn q.2.2.2, sid⟩ : NormRow dt nm) ∈
      clean_and_convert pd pn df sid := by
  simp only [clean_and_convert, h]
  exact List.mem_filterMap.mpr
    ⟨coerceRow pd pn q, List.mem_map_of_mem _ hq, by simp [coerceRow, hd]⟩

/-- Every output row is the coerced image of some input quad whose date
parsed. -/
lemma clean_mem_inv {dt nm : Type} (pd : String → Option dt) (pn : String → Option nm)
    (df : RawFrame) (sid : String) (quads : List Quad)
    (h : selectQuads df = .ok quads) (r : NormRow dt nm)
    (hr : r ∈ clean_and_convert pd pn df sid) :
    ∃ q ∈ quads, pd q.1 = some r.date ∧
      r = ⟨r.date, pn q.2.1, pn q.2.2.1, pn q.2.2.2, sid⟩ := by
  simp only [clean_and_convert, h] at hr
  rcases List.mem_filterMap.mp hr with ⟨cr, hcr, hmap⟩
  rcases List.mem_map.mp hcr with ⟨q, hq, rfl⟩
  cases hpd : pd q.1 with
  | none => simp [coerceRow, hpd] at hmap
  | some d =>
    simp only [coerceRow, hpd, Option.map_some] at hmap
    obtain rfl := Option.some.inj hmap
    exact ⟨q, hq, hpd, rfl⟩

/-- A frame lacking one of the four requested columns makes the column
selection fail. -/
lemma selectQuads_eq_error (df : RawFrame)
    (hnone : df.col? "DATE" = none ∨ df.col? "TEMP" = none ∨
      df.col? "MAX" = none ∨ df.col? "MIN" = none) :
    selectQuads df = .error .schemaError := by
  unfold selectQuads
  cases hD : df.col? "DATE" <;> cases hT : df.col? "TEMP" <;>
    cases hM : df.col? "MAX" <;> cases hN : df.col? "MIN" <;>
    simp_all

/-- Column lookup of an absent name yields none. -/
lemma col?_eq_none_of_not_mem (df : RawFrame) (c : String) (hc : c ∉ df.cols) :
    df.col? c = none := by
  unfold RawFrame.col?
  refine List.findIdx?_eq_none_iff.mpr (fun x hx => ?_)
  exact beq_eq_false_iff_ne.mpr (fun hxc => hc (hxc ▸ hx))

/-! ### Sample data for witnesses -/

/-- Sample raw frame with one parseable-date row and one bad-date row. -/
def sampleFrame : RawFrame :=
  ⟨["DATE", "TEMP", "MAX", "MIN"],
   [["2025-01-01", "5.0", "8.0", "2.0"], ["N/A", "1.0", "2.0", "3.0"]]⟩

/-- Quads the sample frame selects to. -/
def sampleQuads : List Quad :=
  [("2025-01-01", "5.0", "8.0", "2.0"), ("N/A", "1.0", "2.0", "3.0")]

/-- Sample date parser: only the well-formed sample date parses. -/
def sampleParseDate : String → Option Nat :=
  fun s => if s = "2025-01-01" then some 20250101 else none

/-- Sample numeric parser on the sample cells; "8.0" deliberately fails
so witnesses exercise the missing-value marker. -/
def sampleParseNum : String → Option Nat :=
  fun s =>
    if s = "5.0" then some 50 else if s = "2.0" then some 20
    else if s = "1.0" then some 10 else if s = "3.0" then some 30 else none

/-! ### Claims C1, C2, C3 -/

/-- C1: for every input row set, a row appears in the table returned by
clean_and_convert iff its date field parsed successfully; rows whose
date is unparseable are absent, regardless of the numeric fields.  The
first conjunct retains every quad with a parsed date (no condition on
the numeric parses), the second says every output row stems from a quad
whose date parsed, so unparseable-date rows are absent. -/
theorem C1_row_retained_iff_date_parsed {dt nm : Type}
    (pd : String → Option dt) (pn : String → Option nm)
    (df : RawFrame) (sid : String) (quads : List Quad)
    (h : selectQuads df = .ok quads) :
    (∀ q ∈ quads, ∀ d, pd q.1 = some d →
      (⟨d, pn q.2.1, pn q.2.2.1, pn q.2.2.2, sid⟩ : NormRow dt nm) ∈
        clean_and_convert pd pn df sid) ∧
    (∀ r ∈ clean_and_convert pd pn df sid, ∃ q ∈ quads,
      pd q.1 = some r.date ∧
      r = ⟨r.date, pn q.2.1, pn q.2.2.1, pn q.2.2.2, sid⟩) :=
  ⟨fun q hq d hd => clean_mem pd pn df sid quads h q hq d hd,
   fun r hr => clean_mem_inv pd pn df sid quads h r hr⟩

/-- Witness for C1 on the sample frame: the good-date row is in the
output and the bad-date row is not. -/
theorem C1_row_retained_iff_date_parsed_witness :
    selectQuads sampleFrame = .ok sampleQuads ∧
    (⟨20250101, some 50, none, some 20, "ST001"⟩ : NormRow Nat Nat) ∈
      clean_and_convert sampleParseDate sampleParseNum sampleFrame "ST001" := by
  refine ⟨rfl, ?_⟩
  have h :=
    (C1_row_retained_iff_date_parsed sampleParseDate sampleParseNum sampleFrame
      "ST001" sampleQuads rfl).1
      ("2025-01-01", "5.0", "8.0", "2.0") (by decide) 20250101 (by decide)
  simpa using h

/-- C2: a row whose date parses but where some numeric field fails is
retained, with the missing-value marker (none) in exactly the
unparseable numeric fields and the parsed values intact in the rest. -/
theorem C2_partial_numeric_rows_kept_with_markers {dt nm : Type}
    (pd : String → Option dt) (pn : String → Option nm)
    (df : RawFrame) (sid : String) (quads : List Quad)
    (h : selectQuads df = .ok quads) (q : Quad) (hq : q ∈ quads)
    (d : dt) (hd : pd q.1 = some d)
    (_hbad : pn q.2.1 = none ∨ pn q.2.2.1 = none ∨ pn q.2.2.2 = none) :
    ∃ r ∈ clean_and_convert pd pn df sid,
      r.date = d ∧ r.temp = pn q.2.1 ∧ r.max_temp = pn q.2.2.1 ∧
      r.min_temp = pn q.2.2.2 ∧
      (r.temp = none ↔ pn q.2.1 = none) ∧
      (r.max_temp = none ↔ pn q.2.2.1 = none) ∧
      (r.min_temp = none ↔ pn q.2.2.2 = none) := by
  refine ⟨⟨d, pn q.2.1, pn q.2.2.1, pn q.2.2.2, sid⟩,
    clean_mem pd pn df sid quads h q hq d hd, rfl, rfl, rfl, rfl, ?_, ?_, ?_⟩ <;>
    exact Iff.rfl

/-- Witness for C2 on the sample frame: in the good-date row the "8.0"
cell fails numeric parsing, the row is present with none exactly there. -/
theorem C2_partial_numeric_rows_kept_with_markers_witness :
    selectQuads sampleFrame = .ok sampleQuads ∧
    sampleParseNum "8.0" = none ∧
    ∃ r ∈ clean_and_convert sampleParseDate sampleParseNum sampleFrame "ST001",
      r.date = 20250101 ∧ r.temp = sampleParseNum "5.0" ∧
      r.max_temp = sampleParseNum "8.0" ∧ r.min_temp = sampleParseNum "2.0" ∧
      (r.temp = none ↔ sampleParseNum "5.0" = none) ∧
      (r.max_temp = none ↔ sampleParseNum "8.0" = none) ∧
      (r.min_temp = none ↔ sampleParseNum "2.0" = none) := by
  refine ⟨rfl, by decide, ?_⟩
  exact C2_partial_numeric_rows_kept_with_markers sampleParseDate sampleParseNum
    sampleFrame "ST001" sampleQuads rfl
    ("2025-01-01", "5.0", "8.0", "2.0") (by decide) 20250101 (by decide)
    (Or.inr (Or.inl (by decide)))

/-- C3: when any of the four required columns is absent the selection
step fails with the SchemaError before any row is looked at (the same
error results for every row list over the same header), and the overall
operation returns no rows. -/
theorem C3_missing_column_schema_error {dt nm : Type}
    (pd : String → Option dt) (pn : String → Option nm)
    (df : RawFrame) (sid : String) (col : String)
    (hmem : col ∈ (["DATE", "TEMP", "MAX", "MIN"] : List String))
    (habs : col ∉ df.cols) :
    selectQuads df = .error .schemaError ∧
    clean_and_convert pd pn df sid = [] ∧
    ∀ rows2 : List (List String),
      selectQuads ⟨df.cols, rows2⟩ = .error .schemaError := by
  have hcol : ∀ rows2 : List (List String),
      selectQuads ⟨df.cols, rows2⟩ = .error .schemaError := by
    intro rows2
    have hnone : RawFrame.col? ⟨df.cols, rows2⟩ col = none :=
      col?_eq_none_of_not_mem _ col habs
    apply selectQuads_eq_error
    simp only [List.mem_cons, List.not_mem_nil, or_false] at hmem
    rcases hmem with rfl | rfl | rfl | rfl
    · exact Or.inl hnone
    · exact Or.inr (Or.inl hnone)
    · exact Or.inr (Or.inr (Or.inl hnone))
    · exact Or.inr (Or.inr (Or.inr hnone))
  have herr : selectQuads df = .error .schemaError := hcol df.rows
  exact ⟨herr, by simp [clean_and_convert, herr], hcol⟩

/-- Witness for C3: a frame lacking the TEMP column is rejected whole. -/
theorem C3_missing_column_schema_error_witness :
    ("TEMP" : String) ∈ (["DATE", "TEMP", "MAX", "MIN"] : List String) ∧
    ("TEMP" : String) ∉ (["DATE", "MAX", "MIN"] : List String) ∧
    clean_and_convert sampleParseDate sampleParseNum
      ⟨["DATE", "MAX", "MIN"], [["2025-01-01", "8.0", "2.0"]]⟩ "ST001" = [] := by
  refine ⟨by decide, by decide, ?_⟩
  exact (C3_missing_column_schema_error sampleParseDate sampleParseNum
    ⟨["DATE", "MAX", "MIN"], [["2025-01-01", "8.0", "2.0"]]⟩ "ST001" "TEMP"
    (by decide) (by decide)).2.1

/-! ### Order lemmas for the lexicographic comparator -/

/-- The comparator is total. -/
lemma lexLe_total : ∀ a b : List Char, lexLe a b = true ∨ lexLe b a = true := by
  intro a
  induction a with
  | nil => intro b; left; rfl
  | cons x xs ih =>
    intro b
    cases b with
    | nil => right; rfl
    | cons y ys =>
      by_cases hxy : x = y
      · subst hxy
        rcases ih ys with h | h
        · left; simpa [lexLe] using h
        · right; simpa [lexLe] using h
      · rcases lt_trichotomy x y with h | h | h
        · left; simp [lexLe, hxy, h]
        · exact absurd h hxy
        · right; simp [lexLe, Ne.symm hxy, h, not_lt.mpr (le_of_lt h)]

/-- The comparator is transitive. -/
lemma lexLe_trans : ∀ a b c : List Char,
    lexLe a b = true → lexLe b c = true → lexLe a c = true := by
  intro a
  induction a with
  | nil => intro b c _ _; rfl
  | cons x xs ih =>
    intro b c hab hbc
    cases b with
    | nil => simp [lexLe] at hab
    | cons y ys =>
      cases c with
      | nil => simp [lexLe] at hbc
      | cons z zs =>
        by_cases hxy : x = y <;> by_cases hyz : y = z
        · subst hxy; subst hyz
          simp only [lexLe, if_pos rfl] at *
          exact ih _ _ hab hbc
        · subst hxy
          simp only [lexLe, if_pos rfl, if_neg hyz] at *
          simp [hyz, hbc]
        · subst hyz
          simp only [lexLe, if_neg hxy, if_pos rfl] at *
          simp [hxy, hab]
        · simp only [lexLe, if_neg hxy, if_neg hyz] at hab hbc
          have hxz : x < z := lt_trans (of_decide_eq_true hab) (of_decide_eq_true hbc)
          have hne : x ≠ z := ne_of_lt hxz
          simp [lexLe, hne, hxz]

instance : IsTotal String (fun s t => strLe s t = true) :=
  ⟨fun a b => lexLe_total a.data b.data⟩

instance : IsTrans String (fun s t => strLe s t = true) :=
  ⟨fun a b c => lexLe_trans a.data b.data c.data⟩

/-- Comparison under a common prefix ignores the prefix. -/
lemma lexLe_append_left (p a b : List Char) : lexLe (p ++ a) (p ++ b) = lexLe a b := by
  induction p with
  | nil => rfl
  | cons c cs ih => simpa [lexLe] using ih

/-- Comparing two lists that share their head compares the tails. -/
lemma lexLe_cons_same (c : Char) (x y : List Char) :
    lexLe (c :: x) (c :: y) = lexLe x y := by
  simp [lexLe]

/-- Joining the raw directory onto two names does not change how they
compare: sorting joined paths is sorting by name. -/
lemma strLe_joinRaw (a b : String) : strLe (joinRaw a) (joinRaw b) = strLe a b := by
  simp [strLe, joinRaw, String.data_append, List.append_assoc, lexLe_append_left,
    lexLe_cons_same]

/-- Ordered insertion commutes with a map that preserves the order. -/
lemma orderedInsert_map {α β : Type} (r : β → β → Prop) [DecidableRel r]
    (s : α → α → Prop) [DecidableRel s] (f : α → β)
    (hf : ∀ a b, r (f a) (f b) ↔ s a b) (a : α) (l : List α) :
    List.orderedInsert r (f a) (l.map f) = (List.orderedInsert s a l).map f := by
  induction l with
  | nil => rfl
  | cons b t ih =>
    simp only [List.map_cons, List.orderedInsert]
    by_cases h : s a b
    · rw [if_pos ((hf a b).mpr h), if_pos h, List.map_cons, List.map_cons]
    · rw [if_neg (fun hr => h ((hf a b).mp hr)), if_neg h, List.map_cons, ih]

/-- Insertion sort commutes with a map that preserves the order. -/
lemma insertionSort_map {α β : Type} (r : β → β → Prop) [DecidableRel r]
    (s : α → α → Prop) [DecidableRel s] (f : α → β)
    (hf : ∀ a b, r (f a) (f b) ↔ s a b) (l : List α) :
    List.insertionSort r (l.map f) = (List.insertionSort s l).map f := by
  induction l with
  | nil => rfl
  | cons a t ih => simp only [List.map_cons, List.insertionSort, ih,
      orderedInsert_map r s f hf]

/-! ### Claim C5 -/

/-- Projection of a normalized row back onto its coerced form, used to
compare the output with the coerced input sequence. -/
def forgetRow {dt nm : Type} (r : NormRow dt nm) : CRow dt nm :=
  (some r.date, r.temp, r.max_temp, r.min_temp)

/-- Filtering by date presence and normalizing commute with forgetting
the station id. -/
lemma filterMap_forget {dt nm : Type} (sid : String) (l : List (CRow dt nm)) :
    (l.filterMap (fun r => r.1.map
        (fun d => (⟨d, r.2.1, r.2.2.1, r.2.2.2, sid⟩ : NormRow dt nm)))).map forgetRow
      = l.filter (fun r => r.1.isSome) := by
  induction l with
  | nil => rfl
  | cons r t ih =>
    rcases r with ⟨r1, r2, r3, r4⟩
    cases r1 with
    | none => simpa [List.filterMap_cons, List.filter_cons] using ih
    | some d => simpa [List.filterMap_cons, List.filter_cons, forgetRow] using ih

/-- C5: the output row order equals the input row order with the
filtered-out rows removed: forgetting the station id, the output is the
date-present filter of the coerced input sequence, and in particular an
order-preserving sublist of it (stable filter, no sort). -/
theorem C5_stable_filter_order {dt nm : Type}
    (pd : String → Option dt) (pn : String → Option nm)
    (df : RawFrame) (sid : String) (quads : List Quad)
    (h : selectQuads df = .ok quads) :
    ((clean_and_convert pd pn df sid).map forgetRow
      = (quads.map (coerceRow pd pn)).filter (fun r => r.1.isSome)) ∧
    ((clean_and_convert pd pn df sid).map forgetRow).Sublist
      (quads.map (coerceRow pd pn)) := by
  have heq : (clean_and_convert pd pn df sid).map forgetRow
      = (quads.map (coerceRow pd pn)).filter (fun r => r.1.isSome) := by
    simp only [clean_and_convert, h]
    exact filterMap_forget sid _
  exact ⟨heq, heq ▸ List.filter_sublist _⟩

/-- Witness for C5 on the sample frame: the single retained row projects
onto the date-present filter of the two coerced rows. -/
theorem C5_stable_filter_order_witness :
    selectQuads sampleFrame = .ok sampleQuads ∧
    ((clean_and_convert sampleParseDate sampleParseNum sampleFrame "ST001").map forgetRow
      = (sampleQuads.map (coerceRow sampleParseDate sampleParseNum)).filter
          (fun r => r.1.isSome)) :=
  ⟨rfl, (C5_stable_filter_order sampleParseDate sampleParseNum sampleFrame "ST001"
    sampleQuads rfl).1⟩

/-! ### Driver lemmas -/

/-- Logging one event extends the started-station trace by that event's
station, when it is a started event. -/
lemma startedStations_log (st : DState) (e : Event) :
    startedStations (st.log e) = startedStations st ++
      (match e with | .started s => [s] | _ => []) := by
  cases e <;> simp [startedStations, DState.log, List.filterMap_append]

/-- Processing one file always opens exactly one per-file boundary, for
every behaviour of the read, save and upload stages. -/
lemma startedStations_process {dt nm : Type}
    (pd : String → Option dt) (pn : String → Option nm)
    (w : World) (st : DState) (p : String) :
    startedStations (process_station_file pd pn w st p) =
      startedStations st ++ [stationIdOf p] := by
  simp only [process_station_file]
  cases hb : (w.behav p).readOk with
  | none => simp [startedStations, DState.log, List.filterMap_append, stationIdOf]
  | some df =>
    cases hce : (clean_and_convert pd pn df (pyReplace (basename p) ".csv" "")).isEmpty with
    | true => simp [hce, startedStations, DState.log, List.filterMap_append, stationIdOf]
    | false =>
      cases hs : (w.behav p).saveOk with
      | true =>
        cases hu : (w.behav p).uploadOk <;>
          simp [hce, hs, hu, save_parquet, upload_to_s3, startedStations, DState.log,
            List.filterMap_append, stationIdOf]
      | false =>
        simp [hce, hs, save_parquet, startedStations, DState.log,
          List.filterMap_append, stationIdOf]

/-- Folding the per-file step over a list of files opens one boundary per
file, in order, independent of any per-file outcome. -/
lemma startedStations_foldl {dt nm : Type}
    (pd : String → Option dt) (pn : String → Option nm) (w : World)
    (files : List String) (st : DState) :
    startedStations (files.foldl (process_station_file pd pn w) st) =
      startedStations st ++ files.map stationIdOf := by
  induction files generalizing st with
  | nil => simp
  | cons p ps ih =>
    rw [List.foldl_cons, ih, startedStations_process]
    simp [List.append_assoc]

/-- With the raw directory present, the driver opens a per-file boundary
for exactly the capped, sorted discovery list, whatever the per-file
outcomes are. -/
lemma startedStations_main {dt nm : Type}
    (pd : String → Option dt) (pn : String → Option nm)
    (listing : List String) (behav : String → FileBehavior) :
    startedStations (main pd pn ⟨true, listing, behav⟩) =
      (limitedFiles listing).map stationIdOf := by
  have hmain : main pd pn ⟨true, listing, behav⟩ =
      ((limitedFiles listing).foldl
        (process_station_file pd pn ⟨true, listing, behav⟩)
        (DState.init.log
          (.foundFiles (allFiles listing).length (limitedFiles listing).length))).log
        .finished := rfl
  rw [hmain, startedStations_log, startedStations_foldl, startedStations_log]
  simp [startedStations, DState.init]

/-- Every row the cleaner emits carries the station id it was given. -/
lemma station_id_of_mem_clean {dt nm : Type}
    (pd : String → Option dt) (pn : String → Option nm)
    (df : RawFrame) (sid : String) (r : NormRow dt nm)
    (hr : r ∈ clean_and_convert pd pn df sid) : r.station_id = sid := by
  cases hsel : selectQuads df with
  | error e => simp [clean_and_convert, hsel] at hr
  | ok quads =>
    rcases clean_mem_inv pd pn df sid quads hsel r hr with ⟨q, _, _, hreq⟩
    rw [hreq]

/-! ### Claims C6, C7, C8 -/

/-- C6: the driver processes exactly the .csv entries of the (flat)
directory listing, sorted by name, truncated to the first 400; the
processed count is the minimum of the cap and the number of .csv
entries, and the discovery list is sorted. -/
theorem C6_discovery_sorted_capped {dt nm : Type}
    (pd : String → Option dt) (pn : String → Option nm)
    (listing : List String) (behav : String → FileBehavior) :
    startedStations (main pd pn ⟨true, listing, behav⟩) =
      (limitedFiles listing).map stationIdOf ∧
    limitedFiles listing =
      ((List.insertionSort (fun a b => strLe a b = true)
        (listing.filter endsWithCsv)).map joinRaw).take 400 ∧
    (limitedFiles listing).length = min 400 (listing.filter endsWithCsv).length ∧
    List.Sorted (fun a b => strLe a b = true) (allFiles listing) := by
  have hsortmap : allFiles listing =
      (List.insertionSort (fun a b => strLe a b = true)
        (listing.filter endsWithCsv)).map joinRaw := by
    unfold allFiles sortStr
    exact insertionSort_map (fun a b => strLe a b = true) (fun a b => strLe a b = true)
      joinRaw (fun a b => by
        show strLe (joinRaw a) (joinRaw b) = true ↔ strLe a b = true
        rw [strLe_joinRaw]) _
  refine ⟨startedStations_main pd pn listing behav, ?_, ?_, ?_⟩
  · rw [limitedFiles, hsortmap]
  · have h1 : (allFiles listing).length = (listing.filter endsWithCsv).length := by
      unfold allFiles sortStr
      rw [(List.perm_insertionSort _ _).length_eq, List.length_map]
    simp [limitedFiles, List.length_take, h1]
  · unfold allFiles sortStr
    exact List.sorted_insertionSort _ _

/-- C7: a missing raw directory aborts the run at once with the fatal
configuration log line; no file is parsed, written, uploaded, or even
reaches its per-file boundary. -/
theorem C7_missing_raw_dir_fatal {dt nm : Type}
    (pd : String → Option dt) (pn : String → Option nm)
    (listing : List String) (behav : String → FileBehavior) :
    main pd pn ⟨false, listing, behav⟩ = DState.init.log .fatalConfig ∧
    (main pd pn ⟨false, listing, behav⟩).events = [Event.fatalConfig] ∧
    (main pd pn ⟨false, listing, behav⟩).disk = [] ∧
    (main pd pn ⟨false, listing, behav⟩).s3 = [] ∧
    (main pd pn ⟨false, listing, behav⟩).uploads = [] ∧
    startedStations (main pd pn ⟨false, listing, behav⟩) = [] :=
  ⟨rfl, rfl, rfl, rfl, rfl, rfl⟩

/-- C8: when the raw directory exists, every file of the capped batch
reaches its per-file boundary no matter how its stages fail (the read,
clean, save and upload behaviours are universally quantified), and the
run still reaches the final completion log line. -/
theorem C8_per_file_failures_isolated {dt nm : Type}
    (pd : String → Option dt) (pn : String → Option nm)
    (listing : List String) (behav : String → FileBehavior) :
    startedStations (main pd pn ⟨true, listing, behav⟩) =
      (limitedFiles listing).map stationIdOf ∧
    (main pd pn ⟨true, listing, behav⟩).events.getLast? = some Event.finished := by
  refine ⟨startedStations_main pd pn listing behav, ?_⟩
  have hmain : main pd pn ⟨true, listing, behav⟩ =
      ((limitedFiles listing).foldl
        (process_station_file pd pn ⟨true, listing, behav⟩)
        (DState.init.log
          (.foundFiles (allFiles listing).length (limitedFiles listing).length))).log
        .finished := rfl
  rw [hmain]
  simp [DState.log, List.getLast?_concat]

/-! ### Claim C9 -/

/-- World with one station file whose upload always fails. -/
def pubFailWorld : World :=
  ⟨true, ["ST001.csv"], fun _ => ⟨some sampleFrame, true, false⟩⟩

/-- C9: a failed publish is exactly one upload attempt (no retry), logged
as a publish failure; the parquet file written before it stays on disk,
no S3 object appears, and the driver goes on to process every following
file of the batch. -/
theorem C9_publish_failure_single_attempt {dt nm : Type}
    (pd : String → Option dt) (pn : String → Option nm)
    (w : World) (st : DState) (file_path : String) (df : RawFrame)
    (hread : (w.behav file_path).readOk = some df)
    (hne : clean_and_convert pd pn df (stationIdOf file_path) ≠ [])
    (hsave : (w.behav file_path).saveOk = true)
    (hup : (w.behav file_path).uploadOk = false) :
    process_station_file pd pn w st file_path =
      ⟨st.disk ++ [parquetPath (stationIdOf file_path)], st.s3,
       st.uploads ++ [(parquetPath (stationIdOf file_path),
         s3KeyOf (stationIdOf file_path))],
       st.events ++ [.started (stationIdOf file_path),
         .savedParquet (parquetPath (stationIdOf file_path)),
         .uploadFailed (parquetPath (stationIdOf file_path))]⟩ ∧
    ∀ rest : List String,
      startedStations ((file_path :: rest).foldl (process_station_file pd pn w) st) =
        startedStations st ++ stationIdOf file_path :: rest.map stationIdOf := by
  constructor
  · have hisE : (clean_and_convert pd pn df
        (pyReplace (basename file_path) ".csv" "")).isEmpty = false := by
      cases hE : (clean_and_convert pd pn df
          (pyReplace (basename file_path) ".csv" "")).isEmpty
      · rfl
      · exact absurd (List.isEmpty_iff.mp hE) hne
    simp [process_station_file, hread, hisE, hsave, hup, save_parquet, upload_to_s3,
      DState.log, stationIdOf, List.append_assoc]
  · intro rest
    rw [List.foldl_cons, startedStations_foldl, startedStations_process]
    simp [List.append_assoc]

/-- Witness for C9: one file, save succeeds, upload fails; the final
state keeps the parquet file, records a single attempt, and holds no S3
object. -/
theorem C9_publish_failure_single_attempt_witness :
    (pubFailWorld.behav "data/raw/2025/ST001.csv").readOk = some sampleFrame ∧
    clean_and_convert sampleParseDate sampleParseNum sampleFrame
      (stationIdOf "data/raw/2025/ST001.csv") ≠ [] ∧
    process_station_file sampleParseDate sampleParseNum pubFailWorld DState.init
        "data/raw/2025/ST001.csv" =
      ⟨[parquetPath "ST001"], [], [(parquetPath "ST001", s3KeyOf "ST001")],
       [.started "ST001", .savedParquet (parquetPath "ST001"),
        .uploadFailed (parquetPath "ST001")]⟩ := by
  refine ⟨rfl, by decide, ?_⟩
  exact (C9_publish_failure_single_attempt sampleParseDate sampleParseNum pubFailWorld
    DState.init "data/raw/2025/ST001.csv" sampleFrame rfl (by decide) rfl rfl).1

/-! ### Claim C4 -/

/-- World whose single file name contains the extension text twice. -/
def cexWorld : World :=
  ⟨true, ["a.csvb.csv"], fun _ => ⟨some sampleFrame, true, true⟩⟩

/-- C4 counterexample: for the file a.csvb.csv the code's station id is
"ab" (str.replace removes every ".csv" occurrence), while the base name
minus its extension is "a.csvb"; the produced table carries "ab". -/
theorem C4_counterexample :
    processedTable sampleParseDate sampleParseNum cexWorld "data/raw/2025/a.csvb.csv"
      = [⟨20250101, some 50, none, some 20, "ab"⟩] ∧
    specStem (basename "data/raw/2025/a.csvb.csv") = "a.csvb" ∧
    (⟨20250101, some 50, none, some 20, "ab"⟩ : NormRow Nat Nat).station_id ≠
      specStem (basename "data/raw/2025/a.csvb.csv") := by
  refine ⟨?_, by decide, by decide⟩
  decide

/-- C4 as amended: every row of the table produced for a file carries
station_id equal to the file's base name with every occurrence of ".csv"
removed (the code's derivation), and this value is constant across the
table.  It equals the base name minus the extension only when ".csv"
occurs nowhere else in the name. -/
theorem C4_station_id_is_replace_of_basename {dt nm : Type}
    (pd : String → Option dt) (pn : String → Option nm)
    (w : World) (file_path : String) :
    (∀ r ∈ processedTable pd pn w file_path,
      r.station_id = pyReplace (basename file_path) ".csv" "") ∧
    (∀ r ∈ processedTable pd pn w file_path,
      ∀ r2 ∈ processedTable pd pn w file_path,
        r.station_id = r2.station_id) := by
  have hall : ∀ r ∈ processedTable pd pn w file_path,
      r.station_id = pyReplace (basename file_path) ".csv" "" := by
    intro r
    unfold processedTable
    cases hb : (w.behav file_path).readOk with
    | none => intro hr; simp at hr
    | some df =>
      intro hr
      exact station_id_of_mem_clean pd pn df (stationIdOf file_path) r hr
  exact ⟨hall, fun r hr r2 hr2 => (hall r hr).trans (hall r2 hr2).symm⟩

/-- Witness for the amended C4 at the double-extension file: the single
row carries "ab", the replace-derived id. -/
theorem C4_station_id_is_replace_of_basename_witness :
    (⟨20250101, some 50, none, some 20, "ab"⟩ : NormRow Nat Nat) ∈
      processedTable sampleParseDate sampleParseNum cexWorld "data/raw/2025/a.csvb.csv" ∧
    (⟨20250101, some 50, none, some 20, "ab"⟩ : NormRow Nat Nat).station_id =
      pyReplace (basename "data/raw/2025/a.csvb.csv") ".csv" "" := by
  refine ⟨by decide, ?_⟩
  exact (C4_station_id_is_replace_of_basename sampleParseDate sampleParseNum cexWorld
    "data/raw/2025/a.csvb.csv").1 _ (by decide)

/-! ### Claim C10 -/

/-- Reading the address just allocated returns the allocated object. -/
lemma getD_concat_self {α : Type} (l : List α) (x : α) (d : α) :
    (l ++ [x]).getD l.length d = x := by
  rw [List.getD_eq_getElem?_getD, List.getElem?_concat_length, Option.getD_some]

/-- Reading an address just overwritten returns the written object. -/
lemma getD_set_self {α : Type} (l : List α) (i : Nat) (x : α) (d : α)
    (hi : i < l.length) : (l.set i x).getD i d = x := by
  rw [List.getD_eq_getElem?_getD, List.getElem?_set_self hi, Option.getD_some]

/-- Running the six in-place stages on the freshly selected four-column
copy produces exactly the final frame the value-level pipeline computes. -/
lemma pyStages_eq_final {dt nm : Type}
    (pd : String → Option dt) (pn : String → Option nm) (sid : String)
    (df : RawFrame) (quads : List Quad) (hsel : selectQuads df = .ok quads) :
    pyAssignStation sid (pyDropna (pyAssignMin pn (pyAssignMax pn
        (pyAssignTemp pn (pyAssignDate pd (PyObj.sel quads))))))
      = PyObj.final (clean_and_convert pd pn df sid) := by
  simp only [pyAssignDate, pyAssignTemp, pyAssignMax, pyAssignMin, pyDropna,
    pyAssignStation, clean_and_convert, hsel]
  congr 1
  simp only [List.map_map, List.filterMap_map, List.map_filterMap]
  congr 1
  funext q
  simp only [coerceRow, Function.comp]
  cases hq : pd q.1 with
  | none => rfl
  | some d => simp [Function.comp]

/-- C10: clean_and_convert never mutates the caller's DataFrame: every
address that existed before the call (the caller's frame included) holds
the same object afterwards, because the list-indexing copy on line 42
and the dropna on line 50 allocate fresh objects and every in-place
assignment targets one of those two fresh addresses; moreover the object
returned is the final frame computed by the value-level pipeline. -/
theorem C10_caller_frame_unchanged {dt nm : Type}
    (pd : String → Option dt) (pn : String → Option nm)
    (h : List (PyObj dt nm)) (a : Nat) (sid : String) :
    (∀ i, i < h.length → ((cleanHeap pd pn h a sid).1)[i]? = h[i]?) ∧
    (∀ df quads, h[a]? = some (.raw df) → selectQuads df = .ok quads →
      ((cleanHeap pd pn h a sid).1)[(cleanHeap pd pn h a sid).2]? =
        some (PyObj.final (clean_and_convert pd pn df sid))) := by
  constructor
  · intro i hi
    cases hga : h[a]? with
    | none =>
      simp only [cleanHeap, hga]
      exact List.getElem?_append_left hi
    | some obj =>
      cases obj
      case raw df =>
        cases hsel : selectQuads df with
        | error e =>
          simp only [cleanHeap, hga, hsel]
          exact List.getElem?_append_left hi
        | ok quads =>
          simp only [cleanHeap, hga, hsel]
          rw [List.getElem?_set_ne (by
            simp only [List.length_set, List.length_append, List.length_cons,
              List.length_nil]
            omega)]
          rw [List.getElem?_append_left (by
            simp only [List.length_set, List.length_append, List.length_cons,
              List.length_nil]
            omega)]
          rw [List.getElem?_set_ne (by omega), List.getElem?_set_ne (by omega),
            List.getElem?_set_ne (by omega), List.getElem?_set_ne (by omega)]
          exact List.getElem?_append_left hi
      all_goals
        simp only [cleanHeap, hga]
        exact List.getElem?_append_left hi
  · intro df quads hdf hsel
    simp only [cleanHeap, hdf, hsel]
    rw [getD_concat_self]
    rw [getD_set_self _ _ _ _ (by
      simp only [List.length_set, List.length_append, List.length_cons, List.length_nil]
      omega)]
    rw [getD_set_self _ _ _ _ (by
      simp only [List.length_set, List.length_append, List.length_cons, List.length_nil]
      omega)]
    rw [getD_set_self _ _ _ _ (by
      simp only [List.length_set, List.length_append, List.length_cons, List.length_nil]
      omega)]
    rw [getD_set_self _ _ _ _ (by
      simp only [List.length_set, List.length_append, List.length_cons, List.length_nil]
      omega)]
    rw [getD_concat_self]
    rw [List.getElem?_set_self (by
      simp only [List.length_set, List.length_append, List.length_cons, List.length_nil]
      omega)]
    rw [pyStages_eq_final pd pn sid df quads hsel]

/-- Witness for C10 on a one-frame heap: the caller's frame at address 0
is untouched and the returned address holds the final cleaned frame. -/
theorem C10_caller_frame_unchanged_witness :
    (0 : Nat) < ([PyObj.raw sampleFrame] : List (PyObj Nat Nat)).length ∧
    ([PyObj.raw sampleFrame] : List (PyObj Nat Nat))[0]? = some (PyObj.raw sampleFrame) ∧
    selectQuads sampleFrame = .ok sampleQuads ∧
    ((cleanHeap sampleParseDate sampleParseNum [PyObj.raw sampleFrame] 0 "ST001").1)[0]?
      = some (PyObj.raw sampleFrame) ∧
    ((cleanHeap sampleParseDate sampleParseNum [PyObj.raw sampleFrame] 0 "ST001").1)[
        (cleanHeap sampleParseDate sampleParseNum [PyObj.raw sampleFrame] 0 "ST001").2]?
      = some (PyObj.final (clean_and_convert sampleParseDate sampleParseNum
          sampleFrame "ST001")) := by
  refine ⟨by decide, rfl, rfl, ?_, ?_⟩
  · exact (C10_caller_frame_unchanged sampleParseDate sampleParseNum
      [PyObj.raw sampleFrame] 0 "ST001").1 0 (by decide)
  · exact (C10_caller_frame_unchanged sampleParseDate sampleParseNum
      [PyObj.raw sampleFrame] 0 "ST001").2 sampleFrame sampleQuads rfl rfl

end ClimateWatch
